import Mathlib

/-
  Verification of the tbn-scraper application (src/app.py) against its
  natural-language specification.

  The Python source is shallowly embedded below.  Scraped tables (pandas
  DataFrames) are modelled as lists of rows, a row being an association
  list from column names to cell values.  A cell value is either a
  missing value (pandas NaN), a string, or a number.  Python functions
  that can raise are modelled with `Except`.
-/

set_option maxRecDepth 4000

namespace TBN

/-! ### Character / string helpers (models of Python str primitives) -/

/-- Model of Python `str.split` on a class of single characters: split a
character list at every character satisfying `p` (separators removed,
empty fields kept, as Python does). -/
def splitOnPred (p : Char → Bool) : List Char → List (List Char)
  | [] => [[]]
  | c :: rest =>
    match splitOnPred p rest with
    | [] => [[]]
    | h :: t => if p c then [] :: h :: t else (c :: h) :: t

/-- Model of Python `str.strip()`: drop leading and trailing whitespace. -/
def stripChars (cs : List Char) : List Char :=
  ((cs.dropWhile Char.isWhitespace).reverse.dropWhile Char.isWhitespace).reverse

/-- Model of Python `str.isdigit()` (restricted to ASCII digits, the only
ones relevant to year input). -/
def pyIsDigit (cs : List Char) : Bool :=
  !cs.isEmpty && cs.all (fun c => c.isDigit)

/-- Numeric value of a digit string (used only where `pyIsDigit` holds). -/
def natOf (cs : List Char) : Nat :=
  cs.foldl (fun n c => 10 * n + (c.toNat - 48)) 0

/-- Split a character list at the first character satisfying `p`
(model of Python `str.split(sep, 1)` together with the `sep in s` test:
`none` means the separator does not occur). -/
def splitFirstAt (p : Char → Bool) : List Char → Option (List Char × List Char)
  | [] => none
  | c :: rest =>
    if p c then some ([], rest)
    else
      match splitFirstAt p rest with
      | some (a, b) => some (c :: a, b)
      | none => none

/-- Decimal digit character. -/
def digitChar : Nat → Char
  | 0 => '0'
  | 1 => '1'
  | 2 => '2'
  | 3 => '3'
  | 4 => '4'
  | 5 => '5'
  | 6 => '6'
  | 7 => '7'
  | 8 => '8'
  | 9 => '9'
  | _ => '?'

/-- Decimal digits of a natural number (fuel-indexed helper). -/
def natStrAux : Nat → Nat → List Char
  | 0, _ => []
  | fuel + 1, n =>
    if n < 10 then [digitChar n]
    else natStrAux fuel (n / 10) ++ [digitChar (n % 10)]

/-- Model of Python `str(n)` for a natural number, used for the
day-of-month column names `"1"`..`"31"`. -/
def natStr (n : Nat) : String :=
  String.mk (natStrAux (n + 1) n)

/-- Model of Python `str(n)` for an integer. -/
def intStr : Int → String
  | Int.ofNat m => natStr m
  | Int.negSucc m => "-" ++ natStr (m + 1)

/-- Model of Python `sep.join(items)`. -/
def joinWith (sep : String) : List String → String
  | [] => ""
  | [x] => x
  | x :: y :: xs => x ++ sep ++ joinWith sep (y :: xs)

/-- Does `cs` start with `pat`? -/
def leadsWith : List Char → List Char → Bool
  | [], _ => true
  | _ :: _, [] => false
  | p :: ps, c :: cs => p == c && leadsWith ps cs

/-- Does `cs` contain `pat` as a contiguous substring (model of
Python `in` / `str.contains` on plain strings)? -/
def hasRun (pat : List Char) : List Char → Bool
  | [] => pat.isEmpty
  | c :: rest => leadsWith pat (c :: rest) || hasRun pat rest

/-! ### parse_years_input (src/app.py lines 71-84) -/

/-- Insert into a strictly ascending list, keeping it strictly
ascending (duplicates collapse). -/
def insertSD (x : Nat) : List Nat → List Nat
  | [] => [x]
  | y :: ys =>
    if x < y then x :: y :: ys
    else if x == y then y :: ys
    else y :: insertSD x ys

/-- Model of Python `sorted(set(l))`: ascending, deduplicated. -/
def sortedDedup (l : List Nat) : List Nat :=
  l.foldr insertSD []

/-- One loop iteration of `parse_years_input` (src/app.py lines 74-82):
the contribution of a single comma-separated token.  The token arrives
already stripped; for a range the two halves are stripped again after
splitting at the first `-`. -/
def tokenYears (part : List Char) : List Nat :=
  match splitFirstAt (fun c => c == '-') part with
  | some (a0, b0) =>
    if pyIsDigit (stripChars a0) && pyIsDigit (stripChars b0) then
      if natOf (stripChars a0) ≤ natOf (stripChars b0) then
        List.range' (natOf (stripChars a0))
          (natOf (stripChars b0) + 1 - natOf (stripChars a0))
      else []
    else []
  | none => if pyIsDigit part then [natOf part] else []

/-- Model of `parse_years_input` (src/app.py lines 71-84): split on
commas, strip, drop empties, expand tokens, keep years in [2000, 2100],
return `sorted(set(...))`. -/
def parseYearsInput (text : String) : List Nat :=
  let parts := ((splitOnPred (fun c => c == ',') text.toList).map stripChars).filter
    (fun p => !p.isEmpty)
  let ys := (parts.map tokenYears).flatten
  sortedDedup (ys.filter (fun y => 2000 ≤ y && y ≤ 2100))

/-! ### validate_email_list (src/app.py lines 86-91) -/

/-- Is there a `'.'` somewhere in the list with at least one character
after it? -/
def dotFollowed : List Char → Bool
  | [] => false
  | '.' :: _ :: _ => true
  | _ :: rest => dotFollowed rest

/-- Model of `EMAIL_RE.match` for the pattern
`^[^@\s]+@[^@\s]+\.[^@\s]+$` (src/app.py line 69): no whitespace,
exactly one `@` with a nonempty local part, and after the `@` a `.`
that has at least one character on each side. -/
def emailOk (s : String) : Bool :=
  let cs := s.toList
  cs.all (fun c => !c.isWhitespace) &&
  cs.count '@' == 1 &&
  !(cs.takeWhile (fun c => c != '@')).isEmpty &&
  (match cs.dropWhile (fun c => c != '@') with
   | _ :: t => dotFollowed (t.drop 1)
   | [] => false)

/-- The entry list of `validate_email_list`: split the raw string on
`;` and `,`, strip each entry, drop empties (src/app.py line 87). -/
def splitEntries (raw : String) : List String :=
  (((splitOnPred (fun c => c == ';' || c == ',') raw.toList).map stripChars).filter
    (fun e => !e.isEmpty)).map String.mk

/-- Model of `validate_email_list` (src/app.py lines 86-91): raises
`ValueError` naming the offenders when any entry fails `EMAIL_RE`,
otherwise returns the stripped entries. -/
def validateEmailList (raw : String) : Except String (List String) :=
  if ((splitEntries raw).filter (fun e => !emailOk e)).isEmpty then
    .ok (splitEntries raw)
  else
    .error ("Invalid email(s): " ++
      joinWith ", " ((splitEntries raw).filter (fun e => !emailOk e)))

/-! ### Data model: scraped tables as row lists

A pandas DataFrame is modelled as a list of rows; a row is an
association list from column names to cell values.  `CVal.none` stands
for a missing value (NaN), `CVal.str` for a string cell, `CVal.num`
for a numeric cell. -/

/-- A cell value of a scraped table. -/
inductive CVal where
  | none
  | str (s : String)
  | num (n : Int)
deriving DecidableEq

/-- A row: column name to cell value. -/
abbrev Row := List (String × CVal)

/-- Value of column `k` in row `r` (first binding wins), `Option.none`
when the row has no such binding. -/
def rlookup (r : Row) (k : String) : Option CVal :=
  match r.find? (fun kv => kv.1 == k) with
  | some kv => some kv.2
  | Option.none => Option.none

/-- Does the dataframe have a column named `k` (some row binds it)? -/
def hasCol (data : List Row) (k : String) : Bool :=
  data.any (fun r => r.any (fun kv => kv.1 == k))

/-- Does column `k` hold a string in some row?  Used to model whether
the pandas `.str` accessor is usable on the column (object dtype). -/
def strColumn (data : List Row) (k : String) : Bool :=
  data.any (fun r =>
    match rlookup r k with
    | some (.str _) => true
    | _ => false)

/-- Is column `k` numeric over the whole dataframe (no string cell)?
Models the pandas dtype test behind `sum(numeric_only=True)`:
a column with any string cell has object dtype and is dropped. -/
def colIsNumeric (data : List Row) (k : String) : Bool :=
  data.all (fun r =>
    match rlookup r k with
    | some (.str _) => false
    | _ => true)

/-- Sum of the numeric cells of column `k` over `rows` (pandas `sum`
skips missing values). -/
def colSum (rows : List Row) (k : String) : Int :=
  rows.foldl
    (fun acc r =>
      acc + match rlookup r k with
            | some (.num n) => n
            | _ => 0)
    0

/-- Rows of month `m`: model of `new_data[new_data['Month'] == m]`
(src/app.py line 479).  As in pandas, a missing or non-numeric Month
cell compares unequal. -/
def filterMonth (data : List Row) (m : Int) : List Row :=
  data.filter (fun r =>
    match rlookup r "Month" with
    | some (.num n) => n == m
    | _ => false)

/-- Model of `row['Vehicle Types'].str.upper().str.contains("TOTAL",
na=False)` (src/app.py line 481): only a string cell can match, and the
match is case-insensitive containment of "TOTAL". -/
def isTotalRow (r : Row) : Bool :=
  match rlookup r "Vehicle Types" with
  | some (.str s) => hasRun "TOTAL".toList (s.toList.map Char.toUpper)
  | _ => false

/-- Model of `row['Vehicle Types'].str.contains("Wheelchair",
case=False, na=False)` (src/app.py line 489). -/
def isWheelchairRow (r : Row) : Bool :=
  match rlookup r "Vehicle Types" with
  | some (.str s) => hasRun "wheelchair".toList (s.toList.map Char.toLower)
  | _ => false

/-- Can `sub['Vehicle Types'].str...` be evaluated at all?  Models the
KeyError on a missing 'Vehicle Types' column and the AttributeError of
the `.str` accessor on a non-object (no string cell) column. -/
def vtUsable (data : List Row) : Bool :=
  hasCol data "Vehicle Types" && strColumn data "Vehicle Types"

/-- Model of `series.get(k, 0)` on a row of the dataframe `data`: the
cell value when `k` is a column of the dataframe (NaN when this row has
no binding), the integer default 0 otherwise. -/
def dfGet (data : List Row) (r : Row) (k : String) : CVal :=
  if hasCol data k then
    match rlookup r k with
    | some v => v
    | Option.none => .none
  else .num 0

/-- Model of Python `int(s)` on a string: strip whitespace, optional
sign, digits; anything else raises. -/
def pyParseInt (cs : List Char) : Option Int :=
  match stripChars cs with
  | '-' :: rest =>
    if pyIsDigit rest then some (-(natOf rest : Int)) else Option.none
  | '+' :: rest =>
    if pyIsDigit rest then some (natOf rest : Int) else Option.none
  | rest =>
    if pyIsDigit rest then some (natOf rest : Int) else Option.none

/-- Model of Python `int(v or 0)` (src/app.py lines 487, 492, 506):
a missing value (NaN) is truthy and `int(nan)` raises; a number is
returned as is (`0 or 0` is `0`); the empty string is falsy and gives
0; any other string goes through `int(...)`, which raises unless it is
a signed digit string. -/
def pyIntOr0 : CVal → Except Unit Int
  | .none => .error ()
  | .num n => .ok n
  | .str s =>
    if s.isEmpty then .ok 0
    else
      match pyParseInt s.toList with
      | some n => .ok n
      | Option.none => .error ()

/-- The first row of month `m` whose vehicle-type label contains
"TOTAL" case-insensitively (src/app.py lines 481-483). -/
def totalRowOf (data : List Row) (m : Int) : Option Row :=
  ((filterMonth data m).filter isTotalRow).head?

/-- The first row of month `m` whose vehicle-type label contains
"Wheelchair" case-insensitively (src/app.py lines 489-491). -/
def adaRowOf (data : List Row) (m : Int) : Option Row :=
  ((filterMonth data m).filter isWheelchairRow).head?

/-- `monthly_totals_new[m][d]` of `generate_daily_totals_excel`
(src/app.py lines 478-487): if month `m` has a TOTAL row, the first one
is the day-value source and the cell goes through `int(v or 0)`;
otherwise the day columns present in the dataframe are summed
numerically over the month's rows (non-numeric columns dropped by
`numeric_only=True`, absent columns defaulting to 0). -/
def dayTotal (data : List Row) (m : Int) (d : Nat) : Except Unit Int :=
  if vtUsable data then
    match totalRowOf data m with
    | some r => pyIntOr0 (dfGet data r (natStr d))
    | Option.none =>
      .ok (if hasCol data (natStr d) && colIsNumeric data (natStr d)
           then colSum (filterMonth data m) (natStr d)
           else 0)
  else .error ()

/-- `monthly_ada_new[m][d]` of `generate_daily_totals_excel`
(src/app.py lines 489-494): value of the first Wheelchair row through
`int(v or 0)`, all-zero when no row matches. -/
def dayAda (data : List Row) (m : Int) (d : Nat) : Except Unit Int :=
  if vtUsable data then
    match adaRowOf data m with
    | some r => pyIntOr0 (dfGet data r (natStr d))
    | Option.none => .ok 0
  else .error ()

/-! ### Concrete datasets used by the claims -/

/-- The single row of the spec's example:
`{Vehicle Types: "TOTAL", "1": "5", "2": "7"}` stamped with its year
and month by the scraper. -/
def exMarchRow : Row :=
  [("Vehicle Types", CVal.str "TOTAL"), ("1", CVal.str "5"), ("2", CVal.str "7"),
   ("Month", CVal.num 3), ("Year", CVal.num 2025)]

/-- The spec's example dataset: month 3 with the single TOTAL row. -/
def exMarch : List Row := [exMarchRow]

/-- A month with no TOTAL row and a numeric day column, exercising the
summation fallback. -/
def exNoTotal : List Row :=
  [[("Vehicle Types", CVal.str "Van"), ("1", CVal.num 2), ("Month", CVal.num 4)],
   [("Vehicle Types", CVal.str "Bus"), ("1", CVal.num 3), ("Month", CVal.num 4)]]

/-- A TOTAL row whose day-1 cell holds the non-numeric string "n/a". -/
def exBadCell : List Row :=
  [[("Vehicle Types", CVal.str "TOTAL"), ("1", CVal.str "n/a"),
    ("Month", CVal.num 3), ("Year", CVal.num 2025)]]

/-- A month-6 Wheelchair row whose day-15 cell holds the string "-2",
which `int(...)` parses to a negative ADA flag. -/
def exNegAda : List Row :=
  [[("Vehicle Types", CVal.str "Wheelchair Van"), ("15", CVal.str "-2"),
    ("Month", CVal.num 6), ("Year", CVal.num 2025)]]

/-! ### Report renderer (src/app.py lines 554-588) -/

/-- The delta-arrow suffix of one real day/month cell (src/app.py
lines 568-572): `" ↑diff"` for a positive difference against the prior
value, `" ↓abs(diff)"` for a negative one, empty otherwise (also when
no prior dataset exists). -/
def renderArrow (newVal : Int) : Option Int → String
  | some o =>
    if 0 < newVal - o then " ↑" ++ intStr (newVal - o)
    else if newVal - o < 0 then " ↓" ++ intStr (-(newVal - o))
    else ""
  | Option.none => ""

/-- Display text of one real day/month cell (src/app.py lines 568-577):
the new value, then the delta arrow, then a `*` when the cell's ADA
value is positive (`if ada_val and int(ada_val) > 0`). -/
def renderCellText (newVal : Int) (oldVal : Option Int) (adaVal : Int) : String :=
  if 0 < adaVal then intStr newVal ++ renderArrow newVal oldVal ++ "*"
  else intStr newVal ++ renderArrow newVal oldVal

/-- Gregorian leap year, as Python's `datetime` uses. -/
def isLeapYear (y : Nat) : Bool :=
  y % 4 == 0 && (y % 100 != 0 || y % 400 == 0)

/-- Number of days of month `m` in year `y`. -/
def daysInMonth (y m : Nat) : Nat :=
  if m == 2 then (if isLeapYear y then 29 else 28)
  else if m == 4 || m == 6 || m == 9 || m == 11 then 30
  else 31

/-- Does `datetime(y, m, d)` construct without raising?  Python's
`datetime` accepts years 1..9999 and days 1..days-in-month. -/
def validDate (y m d : Nat) : Bool :=
  1 ≤ y && y ≤ 9999 && 1 ≤ m && m ≤ 12 && 1 ≤ d && d ≤ daysInMonth y m

/-- Month offsets of Sakamoto's weekday algorithm. -/
def sakamotoTable : List Nat := [0, 3, 2, 5, 0, 3, 5, 1, 4, 6, 2, 4]

/-- `datetime(y, m, d).weekday()`: Monday = 0 .. Sunday = 6, computed
with Sakamoto's algorithm (which yields Sunday = 0; the `+ 6` rotates
to Python's convention). -/
def pyWeekday (y m d : Nat) : Nat :=
  let z := if m < 3 then y - 1 else y
  (z + z / 4 - z / 100 + z / 400 + sakamotoTable.getD (m - 1) 0 + d + 6) % 7

/-- The cell format chosen by the renderer. -/
inductive CellFmt where
  | plain
  | weekend
deriving DecidableEq

/-- Format of a real day/month cell (src/app.py lines 578-582): the
weekend format exactly when the date is constructible and its weekday
is Saturday or Sunday; the `except` branch falls back to the plain
format for invalid dates. -/
def cellFmt (y m d : Nat) : CellFmt :=
  if validDate y m d then
    (if 5 ≤ pyWeekday y m d then .weekend else .plain)
  else .plain

/-- One rendered real day/month cell: the string written by
`ws.write_string` and the format passed with it (src/app.py
lines 568-583). -/
def renderCell (y m d : Nat) (newVal : Int) (oldVal : Option Int) (adaVal : Int) :
    String × CellFmt :=
  (renderCellText newVal oldVal adaVal, cellFmt y m d)

/-! ### Per-year scrape loop (src/app.py lines 437-469) -/

/-- Observable interactions of `collect_all_data_for_year`: a progress
report naming a month (out of 12), or a scrape attempt for a month
together with whether a table was found. -/
inductive Ev where
  | prog (m : Nat)
  | attempt (m : Nat) (found : Bool)
deriving DecidableEq

/-- Model of `df[k] = v` on a dataframe row: overwrite the binding in
place when the column exists, append it otherwise. -/
def setCol (r : Row) (k : String) (v : CVal) : Row :=
  if r.any (fun kv => kv.1 == k) then
    r.map (fun kv => if kv.1 == k then (k, v) else kv)
  else r ++ [(k, v)]

/-- Stamp a scraped row with its month and year
(src/app.py lines 457-458). -/
def stampRow (y : Int) (m : Nat) (r : Row) : Row :=
  setCol (setCol r "Month" (.num m)) "Year" (.num y)

/-- Model of `scrape_month_data` (src/app.py lines 447-459).  The
browser round trip is abstracted by `fetch`, which returns the parsed
table of a month or `none` when the page has no table; every row of a
found table is stamped with the requested year and month. -/
def scrapeMonth (fetch : Nat → Option (List Row)) (y : Int) (m : Nat) :
    Option (List Row) :=
  (fetch m).map (fun rows => rows.map (stampRow y m))

/-- One iteration of the month loop of `collect_all_data_for_year`
(src/app.py lines 463-468): report progress `m/12` first, then attempt
the scrape, appending the table when one was found. -/
def cadStep (fetch : Nat → Option (List Row)) (y : Int)
    (acc : List Row × List Ev) (m : Nat) : List Row × List Ev :=
  (acc.1 ++ (scrapeMonth fetch y m).getD [],
   acc.2 ++ [Ev.prog m, Ev.attempt m (scrapeMonth fetch y m).isSome])

/-- Model of `collect_all_data_for_year` (src/app.py lines 461-469):
fold the month loop over months 1..12, returning the concatenated
dataset and the trace of sink interactions. -/
def collectAllDataForYear (fetch : Nat → Option (List Row)) (y : Int) :
    List Row × List Ev :=
  (List.range' 1 12).foldl (cadStep fetch y) ([], [])

/-! ### Per-year processing loop of the run handler
(src/app.py lines 790-859) -/

/-- One iteration of the per-year loop: the year's body either yields
that year's artifacts, which are appended, or raises with a message,
which is caught and recorded against that year (`except ... continue`,
src/app.py lines 857-859). -/
def pyStep {α : Type} (runYear : Nat → Except String (List α))
    (acc : List α × List (Nat × String)) (y : Nat) :
    List α × List (Nat × String) :=
  match runYear y with
  | .ok atts => (acc.1 ++ atts, acc.2)
  | .error e => (acc.1, acc.2 ++ [(y, e)])

/-- Model of the per-year loop of the run handler (src/app.py
lines 790-859): process the requested years in order, accumulating
artifacts of successful years and one reported error per failed
year. -/
def processYears {α : Type} (runYear : Nat → Except String (List α))
    (years : List Nat) : List α × List (Nat × String) :=
  years.foldl (pyStep runYear) ([], [])

/-! ### Session release in the run handler (src/app.py lines 739-905) -/

/-- Actions of the run handler that matter to session scoping. -/
inductive RAct where
  | acquire
  | navLogin
  | yearLoop
  | quitDriver
  | reportError
  | stopRun
deriving DecidableEq

/-- Control flow of the run handler after the driver is acquired
(src/app.py lines 762-905): the body under the top-level `try` runs
with the acquired driver; on normal completion `drv.quit()` follows,
wrapped in `try/except pass` (line 861-864) so it cannot propagate; an
exception escaping the body jumps to the `except` at line 903, which
only reports the error and stops — it does not quit the driver. -/
def runButtonFlow
    (body : List RAct → Except (List RAct × String) (List RAct)) : List RAct :=
  match body [RAct.acquire] with
  | .ok log => log ++ [RAct.quitDriver]
  | .error (log, _) => log ++ [RAct.reportError, RAct.stopRun]

/-- A run body that completes normally. -/
def okRunBody : List RAct → Except (List RAct × String) (List RAct) :=
  fun log => .ok (log ++ [RAct.navLogin, RAct.yearLoop])

/-- A run body that raises after the driver is acquired (for example,
the manual-login path's navigation to the report page raising, or
temporary-directory cleanup failing). -/
def failRunBody : List RAct → Except (List RAct × String) (List RAct) :=
  fun log => .error (log ++ [RAct.navLogin], "navigation raised")

/-- An unstamped scraped row, used as witness data. -/
def exFetchRow : Row := [("Vehicle Types", CVal.str "TOTAL"), ("1", CVal.num 4)]

/-- A fetch oracle with a table only in month 3, used as witness data. -/
def exFetch : Nat → Option (List Row) :=
  fun m => if m == 3 then some [exFetchRow] else Option.none

/-! ### Helper lemmas -/

theorem mem_insertSD (x a : Nat) (l : List Nat) :
    x ∈ insertSD a l ↔ x = a ∨ x ∈ l := by
  induction l with
  | nil => simp [insertSD]
  | cons y ys ih =>
    simp only [insertSD]
    by_cases h1 : a < y
    · rw [if_pos h1]
      simp only [List.mem_cons]
    · rw [if_neg h1]
      by_cases h2 : a = y
      · subst h2
        rw [if_pos (beq_self_eq_true a)]
        simp only [List.mem_cons]
        tauto
      · rw [if_neg (by simp [h2] : ¬ ((a == y) = true))]
        simp only [List.mem_cons, ih]
        tauto

theorem pairwise_insertSD (a : Nat) (l : List Nat)
    (h : l.Pairwise (· < ·)) : (insertSD a l).Pairwise (· < ·) := by
  induction l with
  | nil => simp [insertSD]
  | cons y ys ih =>
    rcases List.pairwise_cons.mp h with ⟨hy, hys⟩
    simp only [insertSD]
    by_cases h1 : a < y
    · rw [if_pos h1]
      refine List.pairwise_cons.mpr ⟨?_, h⟩
      intro z hz
      rcases List.mem_cons.mp hz with rfl | hz'
      · exact h1
      · exact Nat.lt_trans h1 (hy z hz')
    · rw [if_neg h1]
      by_cases h2 : a = y
      · have h2' : (a == y) = true := by simp [h2]
        rw [if_pos h2']
        exact h
      · have h2' : (a == y) = false := by simp [h2]
        have hya : y < a := by omega
        rw [if_neg (by simp [h2'])]
        refine List.pairwise_cons.mpr ⟨?_, ih hys⟩
        intro z hz
        rcases (mem_insertSD z a ys).mp hz with rfl | hz'
        · exact hya
        · exact hy z hz'

theorem mem_sortedDedup (x : Nat) (l : List Nat) :
    x ∈ sortedDedup l ↔ x ∈ l := by
  induction l with
  | nil => simp [sortedDedup]
  | cons a l ih =>
    have : sortedDedup (a :: l) = insertSD a (sortedDedup l) := rfl
    rw [this, mem_insertSD]
    simp [ih]

theorem pairwise_sortedDedup (l : List Nat) :
    (sortedDedup l).Pairwise (· < ·) := by
  induction l with
  | nil => exact List.Pairwise.nil
  | cons a l ih => exact pairwise_insertSD a (sortedDedup l) ih

theorem find_overwrite_self (k : String) (v : CVal) :
    ∀ r : Row, r.any (fun kv => kv.1 == k) = true →
      (r.map (fun kv => if kv.1 == k then (k, v) else kv)).find?
        (fun kv => kv.1 == k) = some (k, v) := by
  intro r
  induction r with
  | nil => intro h; simp at h
  | cons a r ih =>
    intro h
    rw [List.map_cons]
    by_cases h1 : (a.1 == k) = true
    · rw [if_pos h1]
      simp
    · have h1' : (a.1 == k) = false := by revert h1; cases a.1 == k <;> simp
      rw [if_neg h1]
      simp only [List.any_cons, h1', Bool.false_or] at h
      rw [List.find?_cons]
      simp only [h1']
      exact ih h

theorem find_append_self (k : String) (v : CVal) :
    ∀ r : Row, r.any (fun kv => kv.1 == k) = false →
      (r ++ [(k, v)]).find? (fun kv => kv.1 == k) = some (k, v) := by
  intro r
  induction r with
  | nil => intro _; simp [List.find?]
  | cons a r ih =>
    intro h
    simp only [List.any_cons, Bool.or_eq_false_iff] at h
    simp [List.find?, h.1, ih h.2]

theorem rlookup_setCol_self (r : Row) (k : String) (v : CVal) :
    rlookup (setCol r k v) k = some v := by
  unfold rlookup setCol
  by_cases h : r.any (fun kv => kv.1 == k) = true
  · rw [if_pos h, find_overwrite_self k v r h]
  · have h' : r.any (fun kv => kv.1 == k) = false := by
      revert h; cases r.any (fun kv => kv.1 == k) <;> simp
    rw [if_neg (by simp [h']), find_append_self k v r h']

theorem find_overwrite_ne (k : String) (v : CVal) (k' : String) (h : k' ≠ k) :
    ∀ r : Row,
      (r.map (fun kv => if kv.1 == k then (k, v) else kv)).find?
        (fun kv => kv.1 == k') = r.find? (fun kv => kv.1 == k') := by
  intro r
  induction r with
  | nil => rfl
  | cons a r ih =>
    rw [List.map_cons]
    by_cases h1 : (a.1 == k) = true
    · have ha : a.1 = k := eq_of_beq h1
      have h2 : (a.1 == k') = false := by
        rw [ha]; simp; exact fun hc => h hc.symm
      have h3 : (k == k') = false := by simp; exact fun hc => h hc.symm
      rw [if_pos h1, List.find?_cons, List.find?_cons]
      simp only [h2, h3]
      exact ih
    · rw [if_neg h1]
      rw [List.find?_cons, List.find?_cons]
      cases h2 : (a.1 == k') with
      | true => simp only [h2]
      | false =>
        simp only [h2]
        exact ih

theorem rlookup_setCol_ne (r : Row) (k k' : String) (v : CVal) (h : k' ≠ k) :
    rlookup (setCol r k v) k' = rlookup r k' := by
  unfold rlookup setCol
  have h3 : (k == k') = false := by simp; intro hc; exact h hc.symm
  by_cases hany : r.any (fun kv => kv.1 == k) = true
  · rw [if_pos hany, find_overwrite_ne k v k' h r]
  · rw [if_neg hany, List.find?_append]
    cases hr : r.find? (fun kv => kv.1 == k') with
    | some kv => simp [hr]
    | none => simp [hr, List.find?, h3]

theorem stampRow_lookup (y : Int) (m : Nat) (r : Row) :
    rlookup (stampRow y m r) "Year" = some (.num y) ∧
    rlookup (stampRow y m r) "Month" = some (.num m) := by
  constructor
  · exact rlookup_setCol_self _ "Year" _
  · rw [stampRow, rlookup_setCol_ne _ _ _ _ (by decide)]
    exact rlookup_setCol_self _ "Month" _

theorem cad_foldl (fetch : Nat → Option (List Row)) (y : Int) :
    ∀ (ms : List Nat) (acc : List Row × List Ev),
      ms.foldl (cadStep fetch y) acc =
        (acc.1 ++ (ms.map (fun m => (scrapeMonth fetch y m).getD [])).flatten,
         acc.2 ++ (ms.map (fun m =>
           [Ev.prog m, Ev.attempt m (scrapeMonth fetch y m).isSome])).flatten) := by
  intro ms
  induction ms with
  | nil => intro acc; simp
  | cons m ms ih =>
    intro acc
    rw [List.foldl_cons, ih]
    simp [cadStep, List.append_assoc]

theorem processYears_foldl {α : Type} (runYear : Nat → Except String (List α)) :
    ∀ (ys : List Nat) (acc : List α × List (Nat × String)),
      ys.foldl (pyStep runYear) acc =
        (acc.1 ++ (ys.map (fun y => (runYear y).toOption.getD [])).flatten,
         acc.2 ++ ys.filterMap (fun y =>
           match runYear y with
           | .ok _ => Option.none
           | .error e => some (y, e))) := by
  intro ys
  induction ys with
  | nil => intro acc; simp
  | cons y ys ih =>
    intro acc
    rw [List.foldl_cons, ih]
    cases hr : runYear y with
    | ok atts => simp [pyStep, hr, Except.toOption, List.append_assoc]
    | error e => simp [pyStep, hr, Except.toOption, List.append_assoc]

/-! ### Sanity checks of the calendar embedding against known dates -/

theorem weekday_sanity :
    pyWeekday 2000 1 1 = 5 ∧ pyWeekday 1970 1 1 = 3 ∧
    pyWeekday 2024 2 29 = 3 ∧ pyWeekday 2025 2 15 = 5 ∧
    pyWeekday 2025 10 12 = 6 ∧ pyWeekday 2026 10 12 = 0 := by
  decide

/-! ### Claim C1 -/

/-- C1 as stated is false at a concrete input: with a TOTAL row whose
day-1 cell holds the non-numeric string "n/a", `int("n/a" or 0)` raises
a ValueError — the aggregator errors out instead of coercing the cell
to zero. -/
theorem claim1_counterexample :
    dayTotal exBadCell 3 1 = Except.error () ∧
    dayTotal exBadCell 3 1 ≠ Except.ok 0 := by
  refine ⟨rfl, ?_⟩
  intro hc
  exact Except.noConfusion (show Except.error () = Except.ok (0 : Int) from hc)

/-- C1 amended: per month, the first row whose 'Vehicle Types' label
case-insensitively contains "TOTAL" is the day-value source, otherwise
all day-labeled numeric columns present are summed across the month's
rows; the spec's example (month 3, TOTAL row with "1"->"5", "2"->"7")
yields totals 5, 7, 0, 0 for days 1, 2, 3, 31; a day column absent
from the dataframe coerces to zero; but a non-empty non-numeric string
cell in the selected total row raises instead of coercing to zero. -/
theorem claim1_theorem :
    (dayTotal exMarch 3 1 = .ok 5 ∧ dayTotal exMarch 3 2 = .ok 7 ∧
     dayTotal exMarch 3 3 = .ok 0 ∧ dayTotal exMarch 3 31 = .ok 0) ∧
    (∀ (data : List Row) (m : Int) (d : Nat) (r : Row) (rest : List Row),
      vtUsable data = true →
      (filterMonth data m).filter isTotalRow = r :: rest →
      dayTotal data m d = pyIntOr0 (dfGet data r (natStr d))) ∧
    (∀ (data : List Row) (m : Int) (d : Nat),
      vtUsable data = true →
      (filterMonth data m).filter isTotalRow = [] →
      dayTotal data m d =
        .ok (if hasCol data (natStr d) && colIsNumeric data (natStr d)
             then colSum (filterMonth data m) (natStr d) else 0)) ∧
    (∀ (data : List Row) (m : Int) (d : Nat) (r : Row) (rest : List Row),
      vtUsable data = true →
      (filterMonth data m).filter isTotalRow = r :: rest →
      hasCol data (natStr d) = false →
      dayTotal data m d = .ok 0) := by
  refine ⟨⟨rfl, rfl, rfl, rfl⟩, ?_, ?_, ?_⟩
  · intro data m d r rest hvt hsel
    unfold dayTotal totalRowOf
    rw [if_pos hvt, hsel]
    rfl
  · intro data m d hvt hsel
    unfold dayTotal totalRowOf
    rw [if_pos hvt, hsel]
    rfl
  · intro data m d r rest hvt hsel hc
    unfold dayTotal totalRowOf
    rw [if_pos hvt, hsel]
    show pyIntOr0 (dfGet data r (natStr d)) = Except.ok 0
    unfold dfGet
    rw [if_neg (by simp [hc])]
    rfl

/-- Witness for the amended C1: the three general clauses applied at
concrete datasets. -/
theorem claim1_witness :
    dayTotal exMarch 3 2 = Except.ok 7 ∧
    dayTotal exNoTotal 4 1 = Except.ok 5 ∧
    dayTotal exMarch 3 31 = Except.ok 0 :=
  ⟨(claim1_theorem.2.1 exMarch 3 2 exMarchRow [] (by decide) (by decide)).trans rfl,
   (claim1_theorem.2.2.1 exNoTotal 4 1 (by decide) (by decide)).trans rfl,
   claim1_theorem.2.2.2 exMarch 3 31 exMarchRow [] (by decide) (by decide) (by decide)⟩

/-! ### Claim C2 -/

/-- C2 as stated is false at a concrete input: an ADA flag of -2,
reachable from a scraped Wheelchair-row cell "-2", is nonzero, yet the
cell renders "4" without the "*" suffix (the code requires a positive
flag, not a nonzero one). -/
theorem claim2_counterexample :
    dayAda exNegAda 6 15 = Except.ok (-2) ∧
    ((-2 : Int) ≠ 0) ∧
    renderCellText 4 Option.none (-2) = "4" ∧
    renderCellText 4 Option.none 0 ++ "*" = "4*" ∧
    ("4" : String) ≠ "4*" := by
  refine ⟨rfl, by decide, rfl, rfl, by decide⟩

/-- C2 amended: a real cell renders the new value, with " ↑delta" when
a prior value exists and the difference is positive, " ↓abs(delta)"
when negative, no arrow when the difference is zero or no prior value
exists, and a final "*" exactly when the ADA flag is positive
(regardless of delta presence); in particular new=10/old=7 renders
"10 ↑3", new=4/old=4 renders "4", no old value renders "4". -/
theorem claim2_theorem :
    (renderCellText 10 (some 7) 0 = "10 ↑3" ∧
     renderCellText 4 (some 4) 0 = "4" ∧
     renderCellText 4 Option.none 0 = "4") ∧
    (∀ n o : Int, o < n →
      renderCellText n (some o) 0 = intStr n ++ (" ↑" ++ intStr (n - o))) ∧
    (∀ n o : Int, n < o →
      renderCellText n (some o) 0 = intStr n ++ (" ↓" ++ intStr (o - n))) ∧
    (∀ n : Int, renderCellText n (some n) 0 = intStr n) ∧
    (∀ n : Int, renderCellText n Option.none 0 = intStr n) ∧
    (∀ (n : Int) (o : Option Int) (a : Int), 0 < a →
      renderCellText n o a = renderCellText n o 0 ++ "*") ∧
    (∀ (n : Int) (o : Option Int) (a : Int), a ≤ 0 →
      renderCellText n o a = renderCellText n o 0) := by
  refine ⟨⟨rfl, rfl, rfl⟩, ?_, ?_, ?_, ?_, ?_, ?_⟩
  · intro n o h
    simp only [renderCellText, renderArrow]
    rw [if_neg (by omega : ¬ ((0 : Int) < 0)),
        if_pos (by omega : (0 : Int) < n - o)]
  · intro n o h
    simp only [renderCellText, renderArrow]
    rw [if_neg (by omega : ¬ ((0 : Int) < 0)),
        if_neg (by omega : ¬ ((0 : Int) < n - o)),
        if_pos (by omega : n - o < 0), Int.neg_sub]
  · intro n
    simp only [renderCellText, renderArrow]
    rw [if_neg (by omega : ¬ ((0 : Int) < 0)),
        if_neg (by omega : ¬ ((0 : Int) < n - n)),
        if_neg (by omega : ¬ (n - n < 0))]
    exact String.append_empty _
  · intro n
    simp only [renderCellText, renderArrow]
    rw [if_neg (by omega : ¬ ((0 : Int) < 0))]
    exact String.append_empty _
  · intro n o a ha
    simp only [renderCellText]
    rw [if_pos ha, if_neg (by omega : ¬ ((0 : Int) < 0))]
  · intro n o a ha
    simp only [renderCellText]
    rw [if_neg (by omega : ¬ ((0 : Int) < a)), if_neg (by omega : ¬ ((0 : Int) < 0))]

/-- Witness for the amended C2: the general clauses applied at concrete
values. -/
theorem claim2_witness :
    renderCellText 10 (some 7) 0 = intStr 10 ++ (" ↑" ++ intStr (10 - 7)) ∧
    renderCellText 3 (some 9) 0 = intStr 3 ++ (" ↓" ++ intStr (9 - 3)) ∧
    renderCellText 5 (some 5) 0 = intStr 5 ∧
    renderCellText 6 Option.none 0 = intStr 6 ∧
    renderCellText 6 Option.none 2 = renderCellText 6 Option.none 0 ++ "*" ∧
    renderCellText 6 Option.none (-1) = renderCellText 6 Option.none 0 :=
  ⟨claim2_theorem.2.1 10 7 (by decide),
   claim2_theorem.2.2.1 3 9 (by decide),
   claim2_theorem.2.2.2.1 5,
   claim2_theorem.2.2.2.2.1 6,
   claim2_theorem.2.2.2.2.2.1 6 Option.none 2 (by decide),
   claim2_theorem.2.2.2.2.2.2 6 Option.none (-1) (by decide)⟩

/-! ### Claim C3 -/

/-- C3: a month with no rows in the dataset yields all-zero daily
totals and all-zero ADA flags, and a month none of whose rows matches
the "Wheelchair" label yields all-zero ADA flags (given that the
'Vehicle Types' column is usable at all, without which the generation
raises for every month). -/
theorem claim3_theorem :
    ∀ (data : List Row) (m : Int) (d : Nat),
      vtUsable data = true →
      ((filterMonth data m = [] →
        dayTotal data m d = .ok 0 ∧ dayAda data m d = .ok 0) ∧
       ((∀ r ∈ filterMonth data m, isWheelchairRow r = false) →
        dayAda data m d = .ok 0)) := by
  intro data m d hvt
  constructor
  · intro hemp
    constructor
    · unfold dayTotal totalRowOf
      rw [if_pos hvt, hemp]
      show Except.ok (if hasCol data (natStr d) && colIsNumeric data (natStr d)
        then colSum ([] : List Row) (natStr d) else 0) = Except.ok 0
      split <;> rfl
    · unfold dayAda adaRowOf
      rw [if_pos hvt, hemp]
      rfl
  · intro hwc
    unfold dayAda adaRowOf
    rw [if_pos hvt]
    have hf : (filterMonth data m).filter isWheelchairRow = [] := by
      rw [List.filter_eq_nil_iff]
      intro a ha
      simp [hwc a ha]
    rw [hf]
    rfl

/-- Witness for C3: month 5 is absent from the example dataset, and
month 3 of it has no Wheelchair row. -/
theorem claim3_witness :
    (dayTotal exMarch 5 1 = Except.ok 0 ∧ dayAda exMarch 5 1 = Except.ok 0) ∧
    dayAda exMarch 3 9 = Except.ok 0 :=
  ⟨(claim3_theorem exMarch 5 1 (by decide)).1 (by decide),
   (claim3_theorem exMarch 3 9 (by decide)).2 (by decide)⟩

/-! ### Claim C4 -/

/-- C4 as stated is false: the very first interaction with the
progress sink is the progress report for month 1, emitted before
month 1's scrape attempt — progress is reported before each attempt,
not after it. -/
theorem claim4_counterexample :
    (collectAllDataForYear (fun _ => Option.none) 2025).2.take 2
      = [Ev.prog 1, Ev.attempt 1 false] ∧
    (collectAllDataForYear (fun _ => Option.none) 2025).2.head?
      = some (Ev.prog 1) := ⟨rfl, rfl⟩

/-- C4 amended: for every year, the scrape loop visits months 1..12 in
ascending order, reporting progress (current month index out of 12)
before each attempt; absent months are skipped; the result is the
concatenation of the found tables in month order (empty when all 12
are absent), every row stamped with the requested year and month. -/
theorem claim4_theorem :
    (∀ (fetch : Nat → Option (List Row)) (y : Int),
      collectAllDataForYear fetch y =
        (((List.range' 1 12).map
            (fun m => (scrapeMonth fetch y m).getD [])).flatten,
         ((List.range' 1 12).map (fun m =>
            [Ev.prog m, Ev.attempt m (scrapeMonth fetch y m).isSome])).flatten)) ∧
    List.range' 1 12 = [1, 2, 3, 4, 5, 6, 7, 8, 9, 10, 11, 12] ∧
    (∀ (fetch : Nat → Option (List Row)) (y : Int) (m : Nat) (rows : List Row),
      scrapeMonth fetch y m = some rows →
      ∀ r ∈ rows, rlookup r "Year" = some (.num y) ∧
        rlookup r "Month" = some (.num m)) ∧
    (∀ (fetch : Nat → Option (List Row)) (y : Int),
      (∀ m, fetch m = Option.none) →
      (collectAllDataForYear fetch y).1 = []) := by
  have ha : ∀ (fetch : Nat → Option (List Row)) (y : Int),
      collectAllDataForYear fetch y =
        (((List.range' 1 12).map
            (fun m => (scrapeMonth fetch y m).getD [])).flatten,
         ((List.range' 1 12).map (fun m =>
            [Ev.prog m, Ev.attempt m (scrapeMonth fetch y m).isSome])).flatten) := by
    intro fetch y
    unfold collectAllDataForYear
    rw [cad_foldl]
    simp
  refine ⟨ha, by decide, ?_, ?_⟩
  · intro fetch y m rows h r hr
    cases hf : fetch m with
    | none =>
      unfold scrapeMonth at h
      rw [hf] at h
      exact Option.noConfusion h
    | some rows0 =>
      unfold scrapeMonth at h
      rw [hf] at h
      have hrows : rows = rows0.map (stampRow y m) := by
        injection h with h'
        exact h'.symm
      subst hrows
      obtain ⟨r0, _, rfl⟩ := List.mem_map.mp hr
      exact stampRow_lookup y m r0
  · intro fetch y hm
    rw [ha]
    simp [scrapeMonth, hm]

/-- Witness for the amended C4: stamping checked on a concrete fetch
oracle, and the all-absent oracle yields the empty dataset. -/
theorem claim4_witness :
    (rlookup (stampRow 2025 3 exFetchRow) "Year" = some (.num 2025) ∧
     rlookup (stampRow 2025 3 exFetchRow) "Month" = some (.num 3)) ∧
    (collectAllDataForYear (fun _ => Option.none) 2025).1 = [] :=
  ⟨claim4_theorem.2.2.1 exFetch 2025 3 [stampRow 2025 3 exFetchRow] rfl
     (stampRow 2025 3 exFetchRow) (List.mem_singleton.mpr rfl),
   claim4_theorem.2.2.2 (fun _ => Option.none) 2025 (fun _ => rfl)⟩

/-! ### Claim C5 -/

/-- C5: a failure while processing one year is recorded against that
year only and the loop continues — the artifacts are exactly the
concatenation of every successful year's artifacts (in input order,
earlier years unaffected by later or earlier failures), and the
reported errors are exactly one per failed year. -/
theorem claim5_theorem :
    ∀ (α : Type) (runYear : Nat → Except String (List α)) (years : List Nat),
      processYears runYear years =
        ((years.map (fun y => (runYear y).toOption.getD [])).flatten,
         years.filterMap (fun y =>
           match runYear y with
           | .ok _ => Option.none
           | .error e => some (y, e))) := by
  intro α runYear years
  unfold processYears
  rw [processYears_foldl]
  simp

/-! ### Claim C6 -/

/-- C6 is violated by the code: on the success path (and after
per-year failures, which the loop catches internally) the driver is
quit, but when an exception escapes the body after the driver is
acquired, the top-level handler only reports and stops — no quit
action occurs on that path. -/
theorem claim6_theorem :
    runButtonFlow okRunBody
      = [RAct.acquire, RAct.navLogin, RAct.yearLoop, RAct.quitDriver] ∧
    RAct.quitDriver ∈ runButtonFlow okRunBody ∧
    runButtonFlow failRunBody
      = [RAct.acquire, RAct.navLogin, RAct.reportError, RAct.stopRun] ∧
    RAct.quitDriver ∉ runButtonFlow failRunBody := by
  refine ⟨rfl, by decide, rfl, by decide⟩

/-! ### Claim C7 -/

/-- C7: a real cell's text is rendered whatever the calendar validity
of its (day, month, report-year); a valid date gets the weekend format
exactly when its weekday is Saturday or Sunday, and an invalid
combination gets the plain format (the weekday check is skipped). -/
theorem claim7_theorem :
    ∀ (y m d : Nat) (n : Int) (o : Option Int) (a : Int),
      (renderCell y m d n o a).1 = renderCellText n o a ∧
      (validDate y m d = true →
        ((renderCell y m d n o a).2 = CellFmt.weekend ↔ 5 ≤ pyWeekday y m d)) ∧
      (validDate y m d = false → (renderCell y m d n o a).2 = CellFmt.plain) := by
  intro y m d n o a
  refine ⟨rfl, ?_, ?_⟩
  · intro hv
    show cellFmt y m d = CellFmt.weekend ↔ 5 ≤ pyWeekday y m d
    unfold cellFmt
    rw [if_pos hv]
    by_cases h5 : 5 ≤ pyWeekday y m d
    · rw [if_pos h5]
      simp [h5]
    · rw [if_neg h5]
      simp [h5]
  · intro hv
    show cellFmt y m d = CellFmt.plain
    unfold cellFmt
    rw [if_neg (by simp [hv])]

/-- Witness for C7: 2025-02-15 is a Saturday and renders with the
weekend format; April 31 is not a valid date of 2025, yet its cell
still renders its text, with the plain format. -/
theorem claim7_witness :
    (renderCell 2025 2 15 3 Option.none 0).2 = CellFmt.weekend ∧
    (renderCell 2025 4 31 3 Option.none 0).2 = CellFmt.plain ∧
    (renderCell 2025 4 31 3 Option.none 0).1 = renderCellText 3 Option.none 0 :=
  ⟨((claim7_theorem 2025 2 15 3 Option.none 0).2.1 (by decide)).mpr (by decide),
   (claim7_theorem 2025 4 31 3 Option.none 0).2.2 (by decide),
   (claim7_theorem 2025 4 31 3 Option.none 0).1⟩

/-! ### Claim C8 -/

/-- C8: parseYears expands ranges and singletons ("2021-2024,2026"
gives [2021,2022,2023,2024,2026]), returns [] on junk ("abc"), drops
out-of-range years such as 1999 and 2101 on every input (every
returned year lies in [2000, 2100]), and always returns a strictly
ascending (hence deduplicated) list. -/
theorem claim8_theorem :
    parseYearsInput "2021-2024,2026" = [2021, 2022, 2023, 2024, 2026] ∧
    parseYearsInput "abc" = [] ∧
    parseYearsInput "1999,2101,2050" = [2050] ∧
    (∀ (t : String) (y : Nat), y ∈ parseYearsInput t → 2000 ≤ y ∧ y ≤ 2100) ∧
    (∀ t : String, (parseYearsInput t).Pairwise (· < ·)) := by
  refine ⟨by decide, by decide, by decide, ?_, ?_⟩
  · intro t y hy
    simp only [parseYearsInput] at hy
    rw [mem_sortedDedup] at hy
    have hb := (List.mem_filter.mp hy).2
    simp at hb
    exact hb
  · intro t
    exact pairwise_sortedDedup _

/-- Witness for C8: the range-restriction clause applied at a member
of a concrete parse. -/
theorem claim8_witness :
    2021 ∈ parseYearsInput "2021-2024,2026" ∧ (2000 ≤ 2021 ∧ 2021 ≤ 2100) ∧
    (parseYearsInput "2021-2024,2026").Pairwise (· < ·) :=
  ⟨by decide, claim8_theorem.2.2.2.1 "2021-2024,2026" 2021 (by decide),
   claim8_theorem.2.2.2.2 "2021-2024,2026"⟩

/-! ### Claim C9 -/

/-- C9: validateEmails raises naming every offending entry whenever
some comma- or semicolon-separated entry fails the email pattern (the
error message lists exactly the failing entries, and each failing
entry is among them), and otherwise returns the list of trimmed
addresses; in particular "a@b.com; bad, c@d.org" raises naming "bad"
and "a@b.com,c@d.org" returns ["a@b.com","c@d.org"]. -/
theorem claim9_theorem :
    validateEmailList "a@b.com; bad, c@d.org"
      = .error "Invalid email(s): bad" ∧
    validateEmailList "a@b.com,c@d.org" = .ok ["a@b.com", "c@d.org"] ∧
    (∀ (raw e : String), e ∈ splitEntries raw → emailOk e = false →
      validateEmailList raw =
        .error ("Invalid email(s): " ++
          joinWith ", " ((splitEntries raw).filter (fun x => !emailOk x))) ∧
      e ∈ (splitEntries raw).filter (fun x => !emailOk x)) ∧
    (∀ raw : String, (∀ e ∈ splitEntries raw, emailOk e = true) →
      validateEmailList raw = .ok (splitEntries raw)) := by
  refine ⟨rfl, rfl, ?_, ?_⟩
  · intro raw e he hbad
    have hmem : e ∈ (splitEntries raw).filter (fun x => !emailOk x) :=
      List.mem_filter.mpr ⟨he, by simp [hbad]⟩
    have hne : ((splitEntries raw).filter (fun x => !emailOk x)).isEmpty = false := by
      cases hfe : (splitEntries raw).filter (fun x => !emailOk x) with
      | nil => rw [hfe] at hmem; exact absurd hmem (List.not_mem_nil e)
      | cons a l => rfl
    refine ⟨?_, hmem⟩
    unfold validateEmailList
    rw [if_neg (by simp [hne])]
  · intro raw hall
    have hf : (splitEntries raw).filter (fun x => !emailOk x) = [] := by
      rw [List.filter_eq_nil_iff]
      intro a ha
      simp [hall a ha]
    unfold validateEmailList
    rw [hf]
    rfl

/-- Witness for C9: the raising clause applied at the spec's failing
input with offender "bad", and the success clause at a single valid
address. -/
theorem claim9_witness :
    (validateEmailList "a@b.com; bad, c@d.org" =
      .error ("Invalid email(s): " ++
        joinWith ", " ((splitEntries "a@b.com; bad, c@d.org").filter
          (fun x => !emailOk x))) ∧
     "bad" ∈ (splitEntries "a@b.com; bad, c@d.org").filter (fun x => !emailOk x)) ∧
    validateEmailList "a@b.com" = .ok (splitEntries "a@b.com") :=
  ⟨claim9_theorem.2.2.1 "a@b.com; bad, c@d.org" "bad" (by decide) (by decide),
   claim9_theorem.2.2.2 "a@b.com" (by decide)⟩

/-! ### Claim C10 -/

/-- C10: a descending range token such as "2024-2021" contributes no
years (neither reversing nor raising), and a token that is neither a
digit string nor a digit-digit range is silently dropped. -/
theorem claim10_theorem :
    (parseYearsInput "2024-2021" = [] ∧
     tokenYears "2024-2021".toList = [] ∧
     parseYearsInput "20x4, -, 2021-xyz, 2a" = []) ∧
    (∀ (p a0 b0 : List Char),
      splitFirstAt (fun c => c == '-') p = some (a0, b0) →
      pyIsDigit (stripChars a0) = true → pyIsDigit (stripChars b0) = true →
      natOf (stripChars b0) < natOf (stripChars a0) →
      tokenYears p = []) ∧
    (∀ (p a0 b0 : List Char),
      splitFirstAt (fun c => c == '-') p = some (a0, b0) →
      (pyIsDigit (stripChars a0) && pyIsDigit (stripChars b0)) = false →
      tokenYears p = []) ∧
    (∀ p : List Char,
      splitFirstAt (fun c => c == '-') p = Option.none →
      pyIsDigit p = false →
      tokenYears p = []) := by
  refine ⟨⟨by decide, by decide, by decide⟩, ?_, ?_, ?_⟩
  · intro p a0 b0 hsplit ha hb hlt
    unfold tokenYears
    rw [hsplit]
    show (if pyIsDigit (stripChars a0) && pyIsDigit (stripChars b0) then
        (if natOf (stripChars a0) ≤ natOf (stripChars b0) then
          List.range' (natOf (stripChars a0))
            (natOf (stripChars b0) + 1 - natOf (stripChars a0))
         else [])
      else []) = []
    rw [if_pos (show (pyIsDigit (stripChars a0) && pyIsDigit (stripChars b0))
          = true by rw [ha, hb]; rfl),
        if_neg (by omega : ¬ (natOf (stripChars a0) ≤ natOf (stripChars b0)))]
  · intro p a0 b0 hsplit hdig
    unfold tokenYears
    rw [hsplit]
    show (if pyIsDigit (stripChars a0) && pyIsDigit (stripChars b0) then
        (if natOf (stripChars a0) ≤ natOf (stripChars b0) then
          List.range' (natOf (stripChars a0))
            (natOf (stripChars b0) + 1 - natOf (stripChars a0))
         else [])
      else []) = []
    rw [if_neg (by simp [hdig])]
  · intro p hsplit hdig
    unfold tokenYears
    rw [hsplit]
    show (if pyIsDigit p then [natOf p] else []) = []
    rw [if_neg (by simp [hdig])]

/-- Witness for C10: the three general clauses applied at concrete
tokens. -/
theorem claim10_witness :
    tokenYears "2024-2021".toList = [] ∧
    tokenYears "20x4-5".toList = [] ∧
    tokenYears "abc".toList = [] :=
  ⟨claim10_theorem.2.1 "2024-2021".toList "2024".toList "2021".toList
     (by decide) (by decide) (by decide) (by decide),
   claim10_theorem.2.2.1 "20x4-5".toList "20x4".toList "5".toList
     (by decide) (by decide),
   claim10_theorem.2.2.2 "abc".toList (by decide) (by decide)⟩

end TBN
